import Mathlib

/-!
Verification development for the Call Brava technical-analysis engine
(`projetocall.py`). The engine loads a daily bar series, computes classic
floor pivots and a Wilder-style momentum oscillator (IFR/RSI), classifies
the latest close into one of five recommendation categories, and renders a
textual report. All numeric work is embedded over `ℚ` (the Python floats
are modelled exactly as rationals); pandas `NaN`/missing-column states are
embedded as `Option`.
-/

/-! ### Configuration constants (source lines 14-18) -/

def RSI_PERIOD : Nat := 9

def RSI_OVERBOUGHT : ℚ := 65

def RSI_OVERSOLD : ℚ := 35

def MA_FAST : Nat := 21

/-- Proximity tolerance `tolerancia_perc = 0.015` (source line 82). -/
def tolerancia_perc : ℚ := 15 / 1000

/-! ### Data model

One bar of the daily series (a row of the downloaded DataFrame: the
timestamp index plus the Open/High/Low/Close/Volume columns). -/

structure Bar where
  ts : ℤ
  abertura : ℚ
  high : ℚ
  low : ℚ
  close : ℚ
  volume : ℚ
  deriving DecidableEq

/-- One processed row: the Close column plus the pivot columns
PP/R1/S1/R2/S2 added by `carregar_e_processar_dados` (source lines 49-53). -/
structure LinhaProcessada where
  close : ℚ
  pp : ℚ
  r1 : ℚ
  s1 : ℚ
  r2 : ℚ
  s2 : ℚ
  deriving DecidableEq

/-- Pivot columns of a single row (source lines 49-53): each row's pivots
are computed from that same row's High/Low/Close only. -/
def processarLinha (b : Bar) : LinhaProcessada :=
  let pp := (b.high + b.low + b.close) / 3
  { close := b.close
    pp := pp
    r1 := 2 * pp - b.low
    s1 := 2 * pp - b.high
    r2 := pp + (b.high - b.low)
    s2 := pp - (b.high - b.low) }

/-- Source lines 37-61: after the download, an empty frame is rejected
(`if df.empty: ... return None`, the only validation performed) and the
pivot columns are appended row by row. The RSI column added by
`df.ta.rsi` is modelled at extraction time by `rsiLast` below (only the
latest row's value is ever read). -/
def carregar_e_processar_dados (bars : List Bar) : Option (List LinhaProcessada) :=
  if bars.isEmpty then none
  else some (bars.map processarLinha)

/-! ### Momentum oscillator (pandas_ta `rsi`, source line 56)

`pandas_ta.rsi` computes `diff` of the Close column, clips gains and
losses, smooths each with `rma` (an `ewm(alpha = 1/length,
min_periods = length)` mean, `adjust=True`), and returns
`100 * positive_avg / (positive_avg + negative_avg)`. With `adjust=True`
the smoothed value at the last position of `[x 1, ..., x m]` is
`Σ (1-α)^(m-i) * x i / Σ (1-α)^(m-i)`. The leading `NaN` of `diff`
contributes nothing; `min_periods` makes the value `NaN` (here `none`)
until `length` differences exist, and a zero denominator (`0/0`) is the
other `NaN` source. -/

/-- Successive differences of a list of closes (`close.diff()`, dropping
the leading `NaN`). -/
def diffs : List ℚ → List ℚ
  | a :: b :: rest => (b - a) :: diffs (b :: rest)
  | _ => []

/-- Exponentially weighted sum: the head of the list is the oldest value
and receives weight `r ^ (length - 1)`; the last value receives `r ^ 0`. -/
def ewmWeightedSum (r : ℚ) : List ℚ → ℚ
  | [] => 0
  | x :: xs => r ^ xs.length * x + ewmWeightedSum r xs

/-- Last value of `rma(xs, period)`: the `adjust=True` exponentially
weighted mean with `alpha = 1 / period`. -/
def rmaLast (period : Nat) (xs : List ℚ) : ℚ :=
  ewmWeightedSum (1 - 1 / (period : ℚ)) xs /
    ewmWeightedSum (1 - 1 / (period : ℚ)) (List.replicate xs.length 1)

/-- Smoothed average gain at the last bar (`positive_avg`). -/
def mediaGanhos (period : Nat) (closes : List ℚ) : ℚ :=
  rmaLast period ((diffs closes).map (fun d => max d 0))

/-- Smoothed average loss at the last bar (`negative_avg = rma(...).abs()`;
the absolute value of the weighted mean of the clipped, nonpositive
differences). -/
def mediaPerdas (period : Nat) (closes : List ℚ) : ℚ :=
  |rmaLast period ((diffs closes).map (fun d => min d 0))|

/-- Value of the RSI column at the last row: `none` when fewer than
`period` differences exist (`min_periods`) or when the `0/0` division
would produce `NaN` (constant series). -/
def rsiLast (period : Nat) (closes : List ℚ) : Option ℚ :=
  if (diffs closes).length < period then none
  else if mediaGanhos period closes + mediaPerdas period closes = 0 then none
  else some (100 * mediaGanhos period closes /
    (mediaGanhos period closes + mediaPerdas period closes))

/-! ### Latest-row extraction (source lines 67-79)

`dados_atuais = df.iloc[-1]` with the defensive reads: the RSI cell may be
missing/`NaN` and the pivot cells are read with `.get` (hence `Option`). -/

structure DadosAtuais where
  close : ℚ
  ifr : Option ℚ
  pp : Option ℚ
  r1 : Option ℚ
  s1 : Option ℚ
  r2 : Option ℚ
  s2 : Option ℚ
  deriving DecidableEq

/-- The last row handed to `gerar_relatorio_analise` by `main`
(source lines 253-264): processed frame, last row, RSI column value. -/
def dados_atuais (bars : List Bar) : Option DadosAtuais :=
  match carregar_e_processar_dados bars with
  | none => none
  | some linhas =>
    match linhas.getLast? with
    | none => none
    | some ultima =>
      some { close := ultima.close
             ifr := rsiLast RSI_PERIOD (bars.map Bar.close)
             pp := some ultima.pp
             r1 := some ultima.r1
             s1 := some ultima.s1
             r2 := some ultima.r2
             s2 := some ultima.s2 }

/-! ### Signal classifier (source lines 86-104) -/

inductive Categoria where
  | compraAgressiva
  | compraModerada
  | vendaAgressiva
  | vendaModerada
  | neutra
  deriving DecidableEq

/-- The ordered, first-match-wins rule chain of source lines 91-104:
buy rules first (aggressive then moderate), then sell rules (aggressive
then moderate), else neutral. -/
def classificar (fechamento ifr s1 r1 : ℚ) : Categoria :=
  if fechamento ≤ s1 + s1 * tolerancia_perc ∧ ifr < RSI_OVERSOLD then
    Categoria.compraAgressiva
  else if fechamento ≤ s1 then
    Categoria.compraModerada
  else if fechamento ≥ r1 - r1 * tolerancia_perc ∧ ifr > RSI_OVERBOUGHT then
    Categoria.vendaAgressiva
  else if fechamento ≥ r1 then
    Categoria.vendaModerada
  else
    Categoria.neutra

/-! ### String helpers

Python's `in` operator and `str.replace`, embedded over `List Char`, plus
the `"%.2f"` formatting used by every f-string of the report. -/

/-- Whether `alvo` is a prefix of the second list. -/
def isPrefixChars : List Char → List Char → Bool
  | [], _ => true
  | _ :: _, [] => false
  | a :: as, b :: bs => a == b && isPrefixChars as bs

/-- Whether `alvo` occurs as a contiguous run of the second list. -/
def strContainsAux (alvo : List Char) : List Char → Bool
  | [] => isPrefixChars alvo []
  | c :: resto => isPrefixChars alvo (c :: resto) || strContainsAux alvo resto

/-- Python's `alvo in s` substring test. -/
def strContains (s alvo : String) : Bool :=
  strContainsAux alvo.data s.data

/-- Fuelled worker for `str.replace`: replaces every occurrence of `alvo`
by `subst`, scanning left to right. The fuel (initially the length of the
string) bounds the recursion; one unit is spent per consumed character. -/
def substituiAux (alvo subst : List Char) : Nat → List Char → List Char
  | _, [] => []
  | 0, s => s
  | Nat.succ fuel, c :: resto =>
    if isPrefixChars alvo (c :: resto) then
      subst ++ substituiAux alvo subst fuel (List.drop alvo.length (c :: resto))
    else
      c :: substituiAux alvo subst fuel resto

/-- Python's `s.replace(alvo, subst)` (used as `ticker_name.replace('.SA', '')`). -/
def replaceStr (s alvo subst : String) : String :=
  String.mk (substituiAux alvo.data subst.data s.data.length s.data)

/-- Round to the nearest integer, ties to even -- the rounding of Python's
fixed-point float formatting. -/
def roundHalfEven (q : ℚ) : ℤ :=
  let n := ⌊q⌋
  if q - n < 1 / 2 then n
  else if (1 : ℚ) / 2 < q - n then n + 1
  else if n % 2 = 0 then n else n + 1

/-- Python's `f"{q:.2f}"`: two fixed decimal places. -/
def format2f (q : ℚ) : String :=
  let c := roundHalfEven (q * 100)
  let a := c.natAbs
  (if c < 0 then ("-") else ("")) ++ toString (a / 100) ++ (".") ++
    (if a % 100 < 10 then ("0") else ("")) ++ toString (a % 100)

/-! ### Report texts (source lines 73, 79, 88-130) -/

/-- Error returned when the RSI cell is missing or `NaN` (source line 73). -/
def msgErroIFR : String :=
  "Erro: Não foi possível calcular o IFR para o período solicitado. Tente um período mais longo."

/-- Error returned when any pivot cell is `None` (source line 79). -/
def msgErroPivo : String :=
  "Erro: Não foi possível calcular os Pontos de Pivô."

/-- The waiting message of the neutral recommendation (source line 126). -/
def msgAguardar : String :=
  "**Aguardar:** Não há um sinal claro de entrada no momento. Recomenda-se monitorar o ativo e esperar o preço se aproximar dos níveis de suporte/resistência com confirmação do IFR."

/-- `recomendacao_acao` string of each branch (source lines 87, 92, 95, 100, 103).
The integer constants interpolated by the source's f-strings (9, 35, 65)
are rendered inline. -/
def recomendacaoTexto : Categoria → String
  | Categoria.compraAgressiva => "**COMPRA AGRESSIVA / LONG**"
  | Categoria.compraModerada => "**COMPRA MODERADA**"
  | Categoria.vendaAgressiva => "**VENDA AGRESSIVA / SHORT**"
  | Categoria.vendaModerada => "**VENDA MODERADA**"
  | Categoria.neutra => "**NEUTRA / AGUARDAR**"

/-- `justificativa_ifr` string of each branch (source lines 88, 93, 96, 101, 104). -/
def justificativaTexto (ifr : ℚ) : Categoria → String
  | Categoria.compraAgressiva =>
    "IFR(9) em " ++ format2f ifr ++ " está na zona de **Sobre-Venda (< 35)**, confirmando um possível ponto de reversão."
  | Categoria.compraModerada =>
    "IFR(9) em " ++ format2f ifr ++ " indica pressão de compra moderada ao se aproximar do suporte."
  | Categoria.vendaAgressiva =>
    "IFR(9) em " ++ format2f ifr ++ " está na zona de **Sobre-Compra (> 65)**, confirmando um possível ponto de reversão."
  | Categoria.vendaModerada =>
    "IFR(9) em " ++ format2f ifr ++ " indica pressão de venda moderada ao se aproximar da resistência."
  | Categoria.neutra =>
    "IFR(9) em " ++ format2f ifr ++ " está em zona neutra (35-65)."

/-- `nivel_entrada` (source lines 125-129): assigned only in the
non-neutral branch, hence `Option`; the branch is chosen exactly as the
source does, by substring tests on `recomendacao_acao`. -/
def nivel_entrada (categoria : Categoria) (s1 r1 : ℚ) : Option ℚ :=
  if strContains (recomendacaoTexto categoria) ("NEUTRA") then none
  else some (if strContains (recomendacaoTexto categoria) ("COMPRA") then s1 else r1)

/-- The recommendation section appended last (source lines 125-130). -/
def secaoRecomendacao (categoria : Categoria) (s1 r1 : ℚ) : String :=
  if strContains (recomendacaoTexto categoria) ("NEUTRA") then
    msgAguardar
  else
    "A recomendação é de **" ++ recomendacaoTexto categoria ++
      "**. O preço está em uma zona de potencial reversão. O ponto de entrada ideal seria próximo de **R$ " ++
      format2f (if strContains (recomendacaoTexto categoria) ("COMPRA") then s1 else r1) ++
      "** (" ++
      (if strContains (recomendacaoTexto categoria) ("COMPRA") then ("COMPRAR") else ("VENDER")) ++
      " no nível de suporte/resistência)."

/-- Report line for S2 (source line 117). -/
def linhaS2 (s2 : ℚ) : String :=
  "- **Suporte 2 (S2):** R$ " ++ format2f s2 ++ "\n"

/-- Report line for R2 (source line 118). -/
def linhaR2 (r2 : ℚ) : String :=
  "- **Resistência 2 (R2):** R$ " ++ format2f r2 ++ "\n\n"

/-- The fixed indicator-narrative sentence (source line 121), emitted on
every report regardless of where the close actually sits. -/
def fraseEntreNiveis (s1 r1 : ℚ) : String :=
  "O preço atual está entre o **Suporte 1 (R$ " ++ format2f s1 ++
    ")** e a **Resistência 1 (R$ " ++ format2f r1 ++ ")**.\n"

/-- `gerar_relatorio_analise` (source lines 63-132). The date of
`df.index[-1]` and the injected generation timestamp reach the report only
through `strftime`; their rendered strings are taken as inputs
(`dataStr`, `tsStr`). -/
def gerar_relatorio_analise (dados : DadosAtuais) (ticker_name dataStr tsStr : String) : String :=
  match dados.ifr with
  | none => msgErroIFR
  | some ifr =>
    match dados.pp, dados.r1, dados.s1, dados.r2, dados.s2 with
    | some pp, some r1, some s1, some r2, some s2 =>
      "## Análise Técnica para " ++ replaceStr ticker_name (".SA") ("") ++ "\n\n"
        ++ "**Preço de Fechamento:** R$ " ++ format2f dados.close ++ "\n"
        ++ "**Dados referentes ao fechamento de:** " ++ dataStr ++ "\n"
        ++ "**Análise gerada em:** " ++ tsStr ++ "\n"
        ++ "**Fonte dos Dados:** Yahoo Finance\n\n"
        ++ "### Níveis de Preço Chave (Pivô Clássico)\n"
        ++ "- **Ponto de Pivô (PP):** R$ " ++ format2f pp ++ "\n"
        ++ "- **Suporte 1 (S1):** R$ " ++ format2f s1 ++ "\n"
        ++ "- **Resistência 1 (R1):** R$ " ++ format2f r1 ++ "\n"
        ++ linhaS2 s2 ++ linhaR2 r2
        ++ "### Análise de Indicadores\n"
        ++ fraseEntreNiveis s1 r1
        ++ "- **Índice de Força Relativa (IFR):** "
        ++ justificativaTexto ifr (classificar dados.close ifr s1 r1) ++ "\n\n"
        ++ "### Recomendação\n"
        ++ secaoRecomendacao (classificar dados.close ifr s1 r1) s1 r1
    | _, _, _, _, _ => msgErroPivo

/-- The full evaluation of `main` for one series (source lines 253-264):
load and process, then generate the report; `none` when the download came
back empty. -/
def pipeline (bars : List Bar) (ticker_name dataStr tsStr : String) : Option String :=
  (dados_atuais bars).map (fun d => gerar_relatorio_analise d ticker_name dataStr tsStr)

/-- Strict ascending order of the bar timestamps (the ordering the spec's
validator is claimed to enforce; the source performs no such check). -/
def timestampsEstritamenteCrescentes : List Bar → Bool
  | [] => true
  | [_] => true
  | a :: b :: rest => (a.ts < b.ts : Bool) && timestampsEstritamenteCrescentes (b :: rest)

/-! ### Helper lemmas -/

theorem diffs_length (l : List ℚ) : (diffs l).length = l.length - 1 := by
  induction l with
  | nil => rfl
  | cons a tail ih =>
    cases tail with
    | nil => rfl
    | cons b rest =>
      simp only [diffs, List.length_cons] at *
      omega

theorem ewmWeightedSum_nonneg (r : ℚ) (hr : 0 ≤ r) (xs : List ℚ)
    (h : ∀ x ∈ xs, 0 ≤ x) : 0 ≤ ewmWeightedSum r xs := by
  induction xs with
  | nil => simp [ewmWeightedSum]
  | cons x xs ih =>
    simp only [ewmWeightedSum]
    have hx : 0 ≤ x := h x (List.mem_cons_self x xs)
    have hxs : 0 ≤ ewmWeightedSum r xs := ih (fun y hy => h y (List.mem_cons_of_mem x hy))
    positivity

theorem fatorSuavizacao_nonneg (period : Nat) : 0 ≤ 1 - 1 / (period : ℚ) := by
  cases period with
  | zero => norm_num
  | succ n =>
    have h1 : (0 : ℚ) < (n : ℚ) + 1 := by positivity
    have : 1 / ((n : ℚ) + 1) ≤ 1 := by
      rw [div_le_one h1]
      linarith
    push_cast
    linarith

theorem rmaLast_nonneg (period : Nat) (xs : List ℚ) (h : ∀ x ∈ xs, 0 ≤ x) :
    0 ≤ rmaLast period xs := by
  unfold rmaLast
  apply div_nonneg
  · exact ewmWeightedSum_nonneg _ (fatorSuavizacao_nonneg period) _ h
  · exact ewmWeightedSum_nonneg _ (fatorSuavizacao_nonneg period) _
      (by intro x hx; rcases List.eq_of_mem_replicate hx with rfl; norm_num)

theorem mediaGanhos_nonneg (period : Nat) (closes : List ℚ) :
    0 ≤ mediaGanhos period closes := by
  unfold mediaGanhos
  apply rmaLast_nonneg
  intro x hx
  rcases List.mem_map.mp hx with ⟨d, _, rfl⟩
  exact le_max_right d 0

theorem mediaPerdas_nonneg (period : Nat) (closes : List ℚ) :
    0 ≤ mediaPerdas period closes := abs_nonneg _

theorem rsiLast_curto (period : Nat) (hp : 0 < period) (closes : List ℚ)
    (h : closes.length < period + 1) : rsiLast period closes = none := by
  have hd : (diffs closes).length < period := by
    rw [diffs_length]
    omega
  unfold rsiLast
  rw [if_pos hd]

/-! ### Claims -/

/-- Claim C1: the five rules are evaluated first-match-wins with the buy
branch tested completely before the sell branch. Whenever the latest close
satisfies a buy condition (at/below the tolerance band with the oscillator
oversold, or at/below S1 outright), the classifier returns a buy category
-- even if the close and oscillator would also satisfy a sell condition --
and a sell category can only come out when neither buy rule matched. -/
theorem compra_tem_prioridade (fechamento ifr s1 r1 : ℚ) :
    (((fechamento ≤ s1 + s1 * tolerancia_perc ∧ ifr < RSI_OVERSOLD) ∨ fechamento ≤ s1) →
      classificar fechamento ifr s1 r1 = Categoria.compraAgressiva ∨
      classificar fechamento ifr s1 r1 = Categoria.compraModerada) ∧
    ((classificar fechamento ifr s1 r1 = Categoria.vendaAgressiva ∨
      classificar fechamento ifr s1 r1 = Categoria.vendaModerada) →
      ¬(fechamento ≤ s1 + s1 * tolerancia_perc ∧ ifr < RSI_OVERSOLD) ∧ ¬(fechamento ≤ s1)) := by
  constructor
  · intro h
    unfold classificar
    split_ifs with h1 h2 h3 h4
    · exact Or.inl rfl
    · exact Or.inr rfl
    · rcases h with h | h
      · exact absurd h h1
      · exact absurd h h2
    · rcases h with h | h
      · exact absurd h h1
      · exact absurd h h2
    · rcases h with h | h
      · exact absurd h h1
      · exact absurd h h2
  · intro h
    unfold classificar at h
    split_ifs at h with h1 h2 h3 h4
    · rcases h with h | h <;> exact absurd h (by simp)
    · rcases h with h | h <;> exact absurd h (by simp)
    · exact ⟨h1, h2⟩
    · exact ⟨h1, h2⟩
    · rcases h with h | h <;> exact absurd h (by simp)

/-- Witness for C1: close 100 with S1 = 99, R1 = 101 lies inside both the
buy tolerance band (99 + 99·0.015 = 100.485) and the sell tolerance band
(101 − 101·0.015 = 99.485); with the oscillator at 30 the classifier still
returns a buy category. -/
theorem compra_tem_prioridade_witness :
    classificar 100 30 99 101 = Categoria.compraAgressiva ∨
    classificar 100 30 99 101 = Categoria.compraModerada :=
  (compra_tem_prioridade 100 30 99 101).1
    (Or.inl ⟨by norm_num [tolerancia_perc], by norm_num [RSI_OVERSOLD]⟩)

/-- Claim C2: the pivot levels of the latest bar are computed from that
bar's High/Low/Close alone by the classic floor formulas, and at
H = 110, L = 90, C = 100 they are exactly PP = 100, R1 = 110, S1 = 90,
R2 = 120, S2 = 80. -/
theorem pivos_classicos_do_ultimo_candle (bars : List Bar) (b : Bar) :
    carregar_e_processar_dados (bars ++ [b]) = some ((bars ++ [b]).map processarLinha) ∧
    ((bars ++ [b]).map processarLinha).getLast? = some (processarLinha b) ∧
    processarLinha { ts := 0, abertura := 100, high := 110, low := 90, close := 100, volume := 0 } =
      { close := 100, pp := 100, r1 := 110, s1 := 90, r2 := 120, s2 := 80 } := by
  refine ⟨?_, ?_, by norm_num [processarLinha]⟩
  · unfold carregar_e_processar_dados
    rw [if_neg]
    simp
  · rw [List.map_append]
    exact List.getLast?_concat _

/-- Claim C3: the aggressive thresholds are strict and the moderate ones
inclusive. A close exactly at S1 with the aggressive rule not matched
yields the moderate buy; a close exactly at S1 + S1·tol with the
oscillator strictly under 35 yields the aggressive buy; an oscillator of
exactly 35 can never produce the aggressive buy, and one of exactly 65 can
never produce the aggressive sell. -/
theorem limiares_estritos_e_inclusivos (s1 r1 o1 o2 fechamento : ℚ) :
    (¬(s1 ≤ s1 + s1 * tolerancia_perc ∧ o1 < RSI_OVERSOLD) →
      classificar s1 o1 s1 r1 = Categoria.compraModerada) ∧
    (o2 < RSI_OVERSOLD →
      classificar (s1 + s1 * tolerancia_perc) o2 s1 r1 = Categoria.compraAgressiva) ∧
    classificar fechamento RSI_OVERSOLD s1 r1 ≠ Categoria.compraAgressiva ∧
    classificar fechamento RSI_OVERBOUGHT s1 r1 ≠ Categoria.vendaAgressiva := by
  refine ⟨?_, ?_, ?_, ?_⟩
  · intro h
    unfold classificar
    rw [if_neg h, if_pos le_rfl]
  · intro h
    unfold classificar
    rw [if_pos ⟨le_rfl, h⟩]
  · unfold classificar
    split_ifs with h1 h2 h3 h4
    · exact absurd h1.2 (lt_irrefl _)
    all_goals simp
  · unfold classificar
    split_ifs with h1 h2 h3 h4
    · simp
    · simp
    · exact absurd h3.2 (lt_irrefl _)
    all_goals simp

/-- Witness for C3, at S1 = 90, R1 = 110: oscillator 50 at close 90 gives
the moderate buy; oscillator 30 at close 91.35 = 90·1.015 gives the
aggressive buy; at close 80 an oscillator of exactly 35 or exactly 65
produces neither aggressive category. -/
theorem limiares_estritos_e_inclusivos_witness :
    classificar 90 50 90 110 = Categoria.compraModerada ∧
    classificar (90 + 90 * tolerancia_perc) 30 90 110 = Categoria.compraAgressiva ∧
    classificar 80 RSI_OVERSOLD 90 110 ≠ Categoria.compraAgressiva ∧
    classificar 80 RSI_OVERBOUGHT 90 110 ≠ Categoria.vendaAgressiva := by
  obtain ⟨h1, h2, h3, h4⟩ := limiares_estritos_e_inclusivos 90 110 50 30 80
  exact ⟨h1 (by rintro ⟨-, hlt⟩; norm_num [RSI_OVERSOLD] at hlt),
    h2 (by norm_num [RSI_OVERSOLD]), h3, h4⟩

/-- Claim C8: whenever the smoothed oscillator is defined it lies in
[0, 100]; it is exactly 100 whenever the smoothed average loss is zero;
and with fewer than `RSI_PERIOD + 1` bars it is unavailable. -/
theorem oscilador_limitado (closes : List ℚ) (v : ℚ) :
    (rsiLast RSI_PERIOD closes = some v → 0 ≤ v ∧ v ≤ 100) ∧
    (rsiLast RSI_PERIOD closes = some v → mediaPerdas RSI_PERIOD closes = 0 → v = 100) ∧
    (closes.length < RSI_PERIOD + 1 → rsiLast RSI_PERIOD closes = none) := by
  have hga := mediaGanhos_nonneg RSI_PERIOD closes
  have hpe := mediaPerdas_nonneg RSI_PERIOD closes
  refine ⟨?_, ?_, fun h => rsiLast_curto RSI_PERIOD (by norm_num [RSI_PERIOD]) closes h⟩
  · intro h
    unfold rsiLast at h
    split_ifs at h with h1 h2
    have hv : 100 * mediaGanhos RSI_PERIOD closes /
        (mediaGanhos RSI_PERIOD closes + mediaPerdas RSI_PERIOD closes) = v :=
      Option.some.inj h
    have hpos : 0 < mediaGanhos RSI_PERIOD closes + mediaPerdas RSI_PERIOD closes :=
      lt_of_le_of_ne (by linarith) (Ne.symm h2)
    constructor
    · rw [← hv]
      apply div_nonneg (by linarith) (le_of_lt hpos)
    · rw [← hv, div_le_iff₀ hpos]
      linarith
  · intro h hz
    unfold rsiLast at h
    split_ifs at h with h1 h2
    have hv : 100 * mediaGanhos RSI_PERIOD closes /
        (mediaGanhos RSI_PERIOD closes + mediaPerdas RSI_PERIOD closes) = v :=
      Option.some.inj h
    rw [hz, add_zero] at hv h2
    rw [← hv, mul_div_assoc, div_self h2, mul_one]

/-- Witness for C8: ten strictly rising closes give oscillator exactly 100
(zero average loss), inside [0, 100]; an empty series gives none. -/
theorem oscilador_limitado_witness :
    (0 ≤ (100 : ℚ) ∧ (100 : ℚ) ≤ 100) ∧ (100 : ℚ) = 100 ∧
    rsiLast RSI_PERIOD ([] : List ℚ) = none := by
  have hsome : rsiLast RSI_PERIOD [1, 2, 3, 4, 5, 6, 7, 8, 9, 10] = some 100 := by
    norm_num [rsiLast, mediaGanhos, mediaPerdas, rmaLast, ewmWeightedSum, diffs,
      RSI_PERIOD, List.replicate]
  have hzero : mediaPerdas RSI_PERIOD [1, 2, 3, 4, 5, 6, 7, 8, 9, 10] = 0 := by
    norm_num [mediaPerdas, rmaLast, ewmWeightedSum, diffs, RSI_PERIOD, List.replicate]
  have h := oscilador_limitado [1, 2, 3, 4, 5, 6, 7, 8, 9, 10] 100
  exact ⟨h.1 hsome, h.2.1 hsome hzero,
    (oscilador_limitado ([] : List ℚ) 0).2.2 (by norm_num [RSI_PERIOD])⟩

/-- Claim C6 (amended): loading fails for a series with zero bars (the
`df.empty` check, the spec's `EmptySeriesError`); but the source performs
no timestamp-ordering check, so every non-empty series is accepted,
strictly increasing or not. -/
theorem validacao_somente_vazio (bars : List Bar) :
    carregar_e_processar_dados ([] : List Bar) = none ∧
    (bars ≠ [] → (carregar_e_processar_dados bars).isSome = true) := by
  refine ⟨rfl, fun h => ?_⟩
  unfold carregar_e_processar_dados
  rw [if_neg (by simp [List.isEmpty_iff, h])]
  rfl

/-- Witness for C6's amended claim: a one-bar series is accepted. -/
theorem validacao_somente_vazio_witness :
    (carregar_e_processar_dados
      [{ ts := 1, abertura := 1, high := 1, low := 1, close := 1, volume := 0 }]).isSome = true :=
  (validacao_somente_vazio
    [{ ts := 1, abertura := 1, high := 1, low := 1, close := 1, volume := 0 }]).2 (by simp)

/-- Counterexample to C6 as stated: a two-bar series whose timestamps
decrease is not rejected -- no `UnsortedSeriesError` exists in the code;
loading succeeds. -/
theorem serie_desordenada_aceita :
    timestampsEstritamenteCrescentes
      [{ ts := 2, abertura := 1, high := 1, low := 1, close := 1, volume := 0 },
       { ts := 1, abertura := 1, high := 1, low := 1, close := 1, volume := 0 }] = false ∧
    (carregar_e_processar_dados
      [{ ts := 2, abertura := 1, high := 1, low := 1, close := 1, volume := 0 },
       { ts := 1, abertura := 1, high := 1, low := 1, close := 1, volume := 0 }]).isSome = true := by
  constructor
  · rfl
  · rfl

/-- Claim C9: the compute-classify-build pipeline is deterministic --
identical bar series, instrument identifier, rendered close date and
injected generation timestamp produce identical indicator rows and
byte-identical report text. -/
theorem pipeline_deterministico (bars bars' : List Bar) (t t' d d' g g' : String)
    (hb : bars = bars') (ht : t = t') (hd : d = d') (hg : g = g') :
    dados_atuais bars = dados_atuais bars' ∧
    pipeline bars t d g = pipeline bars' t' d' g' := by
  subst hb
  subst ht
  subst hd
  subst hg
  exact ⟨rfl, rfl⟩

/-- Witness for C9 at a concrete one-bar input. -/
theorem pipeline_deterministico_witness :
    dados_atuais [{ ts := 1, abertura := 2, high := 3, low := 1, close := 2, volume := 5 }] =
      dados_atuais [{ ts := 1, abertura := 2, high := 3, low := 1, close := 2, volume := 5 }] ∧
    pipeline [{ ts := 1, abertura := 2, high := 3, low := 1, close := 2, volume := 5 }]
        ("PETR4.SA") ("02/01/2024") ("02/01/2024 às 10:00") =
      pipeline [{ ts := 1, abertura := 2, high := 3, low := 1, close := 2, volume := 5 }]
        ("PETR4.SA") ("02/01/2024") ("02/01/2024 às 10:00") :=
  pipeline_deterministico _ _ _ _ _ _ _ _ rfl rfl rfl rfl

/-- Claim C4 (amended): report generation fails with the IFR error when
the oscillator cell is unavailable and with the pivot error when any pivot
cell is unavailable; a series of exactly `RSI_PERIOD` bars (one short of
the minimum) leaves the oscillator unavailable and the whole pipeline
surfaces the IFR error; each error message names the missing indicator
(but not the minimum number of bars -- see the counterexample). -/
theorem indicadores_ausentes_falham (dados : DadosAtuais) (t d g : String) :
    (dados.ifr = none → gerar_relatorio_analise dados t d g = msgErroIFR) ∧
    (∀ x, dados.ifr = some x →
      dados.pp = none ∨ dados.r1 = none ∨ dados.s1 = none ∨
        dados.r2 = none ∨ dados.s2 = none →
      gerar_relatorio_analise dados t d g = msgErroPivo) ∧
    (∀ bars : List Bar, bars.length = RSI_PERIOD → pipeline bars t d g = some msgErroIFR) ∧
    strContains msgErroIFR ("IFR") = true ∧
    strContains msgErroPivo ("Pivô") = true := by
  obtain ⟨fech, i, vpp, vr1, vs1, vr2, vs2⟩ := dados
  refine ⟨?_, ?_, ?_, by decide, by decide⟩
  · intro h
    simp only at h
    rw [h]
    rfl
  · intro x hx hmiss
    simp only at hx
    subst hx
    rcases hmiss with h | h | h | h | h <;> simp only at h <;>
      cases vpp <;> cases vr1 <;> cases vs1 <;> cases vr2 <;> cases vs2 <;>
        simp_all [gerar_relatorio_analise]
  · intro bars hlen
    have hne : bars ≠ [] := by
      intro hnil
      rw [hnil] at hlen
      simp [RSI_PERIOD] at hlen
    have hifr : rsiLast RSI_PERIOD (bars.map Bar.close) = none := by
      apply rsiLast_curto _ (by norm_num [RSI_PERIOD])
      simp [hlen]
    obtain ⟨ultima, hu⟩ := Option.isSome_iff_exists.mp
      ((@List.getLast?_isSome _ (bars.map processarLinha)).mpr
        (by simp [List.map_eq_nil_iff, hne]))
    have hda : dados_atuais bars =
        some { close := ultima.close, ifr := rsiLast RSI_PERIOD (bars.map Bar.close),
               pp := some ultima.pp, r1 := some ultima.r1, s1 := some ultima.s1,
               r2 := some ultima.r2, s2 := some ultima.s2 } := by
      unfold dados_atuais carregar_e_processar_dados
      rw [if_neg (by simp [List.isEmpty_iff, hne])]
      simp only [hu]
    unfold pipeline
    rw [hda]
    simp [gerar_relatorio_analise, hifr]

/-- A degenerate one-price bar, used to build short concrete series. -/
def barraSimples (n : ℤ) : Bar :=
  { ts := n, abertura := 1, high := 1, low := 1, close := 1, volume := 0 }

/-- A series of exactly `RSI_PERIOD = 9` bars: one short of the minimum
needed for the oscillator. -/
def serieNoveBarras : List Bar :=
  [barraSimples 1, barraSimples 2, barraSimples 3, barraSimples 4, barraSimples 5,
   barraSimples 6, barraSimples 7, barraSimples 8, barraSimples 9]

/-- Witness for C4: a missing oscillator cell yields the IFR error, a
missing pivot cell yields the pivot error, and the nine-bar series makes
the whole pipeline surface the IFR error. -/
theorem indicadores_ausentes_falham_witness :
    gerar_relatorio_analise
      { close := 100, ifr := none, pp := some 100, r1 := some 110, s1 := some 90,
        r2 := some 120, s2 := some 80 } ("X") ("d") ("g") = msgErroIFR ∧
    gerar_relatorio_analise
      { close := 100, ifr := some 50, pp := none, r1 := some 110, s1 := some 90,
        r2 := some 120, s2 := some 80 } ("X") ("d") ("g") = msgErroPivo ∧
    pipeline serieNoveBarras ("X") ("d") ("g") = some msgErroIFR := by
  refine ⟨(indicadores_ausentes_falham _ ("X") ("d") ("g")).1 rfl,
    (indicadores_ausentes_falham _ ("X") ("d") ("g")).2.1 50 rfl (Or.inl rfl),
    (indicadores_ausentes_falham
      { close := 100, ifr := none, pp := some 100, r1 := some 110, s1 := some 90,
        r2 := some 120, s2 := some 80 } ("X") ("d") ("g")).2.2.1 serieNoveBarras rfl⟩

/-- Counterexample to C4 as stated: on the nine-bar series the pipeline
fails with the IFR message, but that message contains no digit at all, so
it cannot state the minimum number of bars (ten) that the claim says it
indicates. -/
theorem mensagem_erro_sem_minimo_de_barras :
    pipeline serieNoveBarras ("X") ("d") ("g") = some msgErroIFR ∧
    msgErroIFR.data.any Char.isDigit = false := by
  constructor
  · decide
  · decide

/-- Claim C5 (amended): the report builder does not tolerate a missing
S2/R2 -- when either is unavailable (oscillator present) it fails with the
pivot error instead of omitting the line; when all five pivots are present
it never fails and the report carries the S2 and R2 lines. -/
theorem relatorio_exige_pivos_completos (dados : DadosAtuais) (t d g : String) :
    (∀ x, dados.ifr = some x → dados.r2 = none ∨ dados.s2 = none →
      gerar_relatorio_analise dados t d g = msgErroPivo) ∧
    (∀ fech x vpp vr1 vs1 vr2 vs2 : ℚ,
      ∃ p q, gerar_relatorio_analise
          { close := fech, ifr := some x, pp := some vpp, r1 := some vr1,
            s1 := some vs1, r2 := some vr2, s2 := some vs2 } t d g =
        p ++ (linhaS2 vs2 ++ linhaR2 vr2) ++ q) := by
  constructor
  · intro x hx hmiss
    obtain ⟨fech, i, vpp, vr1, vs1, vr2, vs2⟩ := dados
    simp only at hx
    subst hx
    rcases hmiss with h | h <;> simp only at h <;>
      cases vpp <;> cases vr1 <;> cases vs1 <;> cases vr2 <;> cases vs2 <;>
        simp_all [gerar_relatorio_analise]
  · intro fech x vpp vr1 vs1 vr2 vs2
    refine ⟨"## Análise Técnica para " ++ replaceStr t (".SA") ("") ++ "\n\n"
        ++ "**Preço de Fechamento:** R$ " ++ format2f fech ++ "\n"
        ++ "**Dados referentes ao fechamento de:** " ++ d ++ "\n"
        ++ "**Análise gerada em:** " ++ g ++ "\n"
        ++ "**Fonte dos Dados:** Yahoo Finance\n\n"
        ++ "### Níveis de Preço Chave (Pivô Clássico)\n"
        ++ "- **Ponto de Pivô (PP):** R$ " ++ format2f vpp ++ "\n"
        ++ "- **Suporte 1 (S1):** R$ " ++ format2f vs1 ++ "\n"
        ++ "- **Resistência 1 (R1):** R$ " ++ format2f vr1 ++ "\n",
      "### Análise de Indicadores\n"
        ++ fraseEntreNiveis vs1 vr1
        ++ "- **Índice de Força Relativa (IFR):** "
        ++ justificativaTexto x (classificar fech x vs1 vr1) ++ "\n\n"
        ++ "### Recomendação\n"
        ++ secaoRecomendacao (classificar fech x vs1 vr1) vs1 vr1, ?_⟩
    simp only [gerar_relatorio_analise]
    simp only [String.append_assoc]

/-- Witness for C5's amended claim: an unavailable R2 (all the
signal-required indicators present) makes the builder fail with the pivot
error. -/
theorem relatorio_exige_pivos_completos_witness :
    gerar_relatorio_analise
      { close := 100, ifr := some 50, pp := some 100, r1 := some 110, s1 := some 90,
        r2 := none, s2 := some 80 } ("X") ("d") ("g") = msgErroPivo :=
  (relatorio_exige_pivos_completos
    { close := 100, ifr := some 50, pp := some 100, r1 := some 110, s1 := some 90,
      r2 := none, s2 := some 80 } ("X") ("d") ("g")).1 50 rfl (Or.inl rfl)

/-- Counterexample to C5 as stated: with S2 unavailable and every
signal-required indicator present, the builder does not produce a report
that merely omits the S2 line -- it aborts with the pivot error (which
carries no pivot lines at all). -/
theorem relatorio_sem_s2_aborta :
    gerar_relatorio_analise
      { close := 100, ifr := some 50, pp := some 100, r1 := some 110, s1 := some 90,
        r2 := some 120, s2 := none } ("X") ("d") ("g") = msgErroPivo ∧
    strContains msgErroPivo ("Suporte 2") = false := by
  constructor
  · decide
  · decide

theorem secao_neutra (s1 r1 : ℚ) :
    secaoRecomendacao Categoria.neutra s1 r1 = msgAguardar := rfl

/-- Claim C7: with the close strictly inside both tolerance bands (S1, R1
nonnegative) and the oscillator in the neutral zone, the classifier is
neutral, no entry price is assigned, the report ends with the waiting
message, and the appended recommendation section carries neither
recommendation verb. -/
theorem cenario_neutro (fech o vpp vr1 vs1 vr2 vs2 : ℚ) (t d g : String)
    (hs1 : 0 ≤ vs1) (hr1 : 0 ≤ vr1)
    (hlo : vs1 + vs1 * tolerancia_perc < fech)
    (hhi : fech < vr1 - vr1 * tolerancia_perc)
    (_ho : RSI_OVERSOLD ≤ o ∧ o ≤ RSI_OVERBOUGHT) :
    classificar fech o vs1 vr1 = Categoria.neutra ∧
    nivel_entrada (classificar fech o vs1 vr1) vs1 vr1 = none ∧
    (∃ p, gerar_relatorio_analise
        { close := fech, ifr := some o, pp := some vpp, r1 := some vr1,
          s1 := some vs1, r2 := some vr2, s2 := some vs2 } t d g =
      p ++ msgAguardar) ∧
    strContains msgAguardar ("COMPRAR") = false ∧
    strContains msgAguardar ("VENDER") = false := by
  have htols : 0 ≤ vs1 * tolerancia_perc := mul_nonneg hs1 (by norm_num [tolerancia_perc])
  have htolr : 0 ≤ vr1 * tolerancia_perc := mul_nonneg hr1 (by norm_num [tolerancia_perc])
  have hcat : classificar fech o vs1 vr1 = Categoria.neutra := by
    unfold classificar
    split_ifs with h1 h2 h3 h4
    · exact absurd h1.1 (not_le.mpr (by linarith))
    · exact absurd h2 (not_le.mpr (by linarith))
    · exact absurd h3.1 (not_le.mpr (by linarith))
    · exact absurd h4 (not_le.mpr (by linarith))
    · rfl
  refine ⟨hcat, by rw [hcat]; rfl, ?_, by decide, by decide⟩
  simp only [gerar_relatorio_analise]
  rw [hcat, secao_neutra]
  exact ⟨_, rfl⟩

/-- Witness for C7 at close 100 between S1 = 90 and R1 = 110 with
oscillator 50. -/
theorem cenario_neutro_witness :
    classificar 100 50 90 110 = Categoria.neutra ∧
    nivel_entrada (classificar 100 50 90 110) 90 110 = none ∧
    (∃ p, gerar_relatorio_analise
        { close := 100, ifr := some 50, pp := some 100, r1 := some 110,
          s1 := some 90, r2 := some 120, s2 := some 80 }
        ("PETR4.SA") ("02/01/2024") ("02/01/2024 às 10:00") =
      p ++ msgAguardar) ∧
    strContains msgAguardar ("COMPRAR") = false ∧
    strContains msgAguardar ("VENDER") = false :=
  cenario_neutro 100 50 100 110 90 120 80 ("PETR4.SA") ("02/01/2024") ("02/01/2024 às 10:00")
    (by norm_num) (by norm_num) (by norm_num [tolerancia_perc]) (by norm_num [tolerancia_perc])
    (by norm_num [RSI_OVERSOLD, RSI_OVERBOUGHT])

/-- Claim C10: every report carries the fixed indicator-narrative sentence
claiming the current price sits between Support 1 and Resistance 1 -- for
every close whatsoever, including closes at or below S1 or at or above R1,
because the sentence is an unconditional template. -/
theorem frase_fixa_entre_niveis (fech x vpp vr1 vs1 vr2 vs2 : ℚ) (t d g : String) :
    ∃ p q, gerar_relatorio_analise
        { close := fech, ifr := some x, pp := some vpp, r1 := some vr1,
          s1 := some vs1, r2 := some vr2, s2 := some vs2 } t d g =
      p ++ fraseEntreNiveis vs1 vr1 ++ q := by
  refine ⟨"## Análise Técnica para " ++ replaceStr t (".SA") ("") ++ "\n\n"
      ++ "**Preço de Fechamento:** R$ " ++ format2f fech ++ "\n"
      ++ "**Dados referentes ao fechamento de:** " ++ d ++ "\n"
      ++ "**Análise gerada em:** " ++ g ++ "\n"
      ++ "**Fonte dos Dados:** Yahoo Finance\n\n"
      ++ "### Níveis de Preço Chave (Pivô Clássico)\n"
      ++ "- **Ponto de Pivô (PP):** R$ " ++ format2f vpp ++ "\n"
      ++ "- **Suporte 1 (S1):** R$ " ++ format2f vs1 ++ "\n"
      ++ "- **Resistência 1 (R1):** R$ " ++ format2f vr1 ++ "\n"
      ++ linhaS2 vs2 ++ linhaR2 vr2
      ++ "### Análise de Indicadores\n",
    "- **Índice de Força Relativa (IFR):** "
      ++ justificativaTexto x (classificar fech x vs1 vr1) ++ "\n\n"
      ++ "### Recomendação\n"
      ++ secaoRecomendacao (classificar fech x vs1 vr1) vs1 vr1, ?_⟩
  simp only [gerar_relatorio_analise]
  simp only [String.append_assoc]
